import Mathlib

/-!
# Verification of the RustLint orchestrator (scripts/lint.py)

A shallow embedding of `scripts/lint.py`, a thin CLI that discovers cargo
project directories (via the `Cargo.toml` manifest marker), runs external
tools (`cargo fmt` / `cargo clippy` / `cargo fix`) on them, aggregates
failures and terminates with an exit code.

Modelling conventions:
* A filesystem path is a list of components from the root (`Path`);
  `os.path.dirname` is `List.dropLast`, `os.path.join d "Cargo.toml"` is
  `d ++ ["Cargo.toml"]`, and the parent of the root is the root itself.
* The filesystem is a predicate `Fs : Path → Bool` standing for
  `os.path.exists`.
* `subprocess.run(command, cwd=directory, ...)` for tools is an oracle
  `Exec : List String → Path → ProcResult`; the two fixed `git diff`
  queries are modelled by a `GitEnv` holding each query's return code and
  its stdout already split into lines (`GitQuery.lines`).
* `sys.exit(code)` and an uncaught `CalledProcessError` are made explicit
  through the `Outcome` type.
* External process invocations are instrumented: each runner returns the
  list of `Invocation`s it performed, so "no external process was run" is
  a provable statement.
-/

set_option autoImplicit false

namespace RustLint

/-- An absolute filesystem path, as its list of components from the root. -/
abbrev Path := List String

/-- Rendering of a path, used only to build console/stdout messages. -/
def pathStr (p : Path) : String := "/" ++ String.intercalate "/" p

/-- Result of `subprocess.run(..., capture_output=True, text=True)`. -/
structure ProcResult where
  returncode : Int
  stdout : String
  stderr : String
deriving DecidableEq

/-- Result of running a tool (the `ToolResult` dataclass). -/
structure ToolResult where
  name : String
  success : Bool
  stdout : String
  stderr : String
deriving DecidableEq

/-- A named Rust tool: `BaseRustTool(name, command_factory)`. -/
structure BaseRustTool where
  name : String
  command_factory : Path → List String

/-- One recorded external process invocation: the command line and the
working directory (`cwd`) it was started in. -/
structure Invocation where
  command : List String
  cwd : Path
deriving DecidableEq

/-- The filesystem oracle: `os.path.exists`. -/
abbrev Fs := Path → Bool

/-- The process oracle: `subprocess.run(command, cwd=directory, ...)`. -/
abbrev Exec := List String → Path → ProcResult

/-- `BaseRustTool.run(self, directory)`: skip (with success) when
`Cargo.toml` is absent from `directory`, else run the tool's command with
`cwd = directory` and translate the exit code into the success flag.
Returns the `ToolResult` together with the list of external invocations
performed. -/
def BaseRustTool.run (fsx : Fs) (exec : Exec) (self : BaseRustTool)
    (directory : Path) : ToolResult × List Invocation :=
  if !(fsx (directory ++ ["Cargo.toml"])) then
    (⟨self.name, true, "Skipped " ++ pathStr directory, ""⟩, [])
  else
    let command := self.command_factory directory
    let process := exec command directory
    (⟨self.name, process.returncode == 0, process.stdout, process.stderr⟩,
      [⟨command, directory⟩])

/-- The `linters` registry of `RustToolRunner.__init__` (a dict with
insertion order, modelled as a list). -/
def linters : List BaseRustTool :=
  [⟨"clippy", fun _ => ["cargo", "clippy", "--", "-D", "warnings"]⟩]

/-- The `formatters` registry of `RustToolRunner.__init__`. -/
def formatters : List BaseRustTool :=
  [⟨"fmt", fun _ => ["cargo", "fmt"]⟩]

/-- The `fixers` registry of `RustToolRunner.__init__`. -/
def fixers : List BaseRustTool :=
  [⟨"fix", fun _ => ["cargo", "fix"]⟩]

/-- The registry of fixers allowed to touch a dirty/staged working tree
(named `unsafe_fixers` in the source). -/
def allow_dirty_fixers : List BaseRustTool :=
  [⟨"fix", fun _ => ["cargo", "fix", "--allow-dirty", "--allow-staged"]⟩]

/-- `RustToolRunner.get_tools_to_run`: with a truthy (present, non-empty)
`selected_tools` list keep only the registry entries whose name is in it;
otherwise return the whole registry. -/
def get_tools_to_run (tools : List BaseRustTool)
    (selected_tools : Option (List String)) : List BaseRustTool :=
  match selected_tools with
  | some sel => if sel.isEmpty then tools else
      tools.filter (fun t => sel.contains t.name)
  | none => tools

/-- The `DEFAULT_CARGO_DIR = "."` fallback target directory. -/
def default_cargo_dir : Path := ["."]

/-- The inner `for d in dirs` loop of `RustToolRunner.run_on_dirs` for one
tool: whether the tool failed in any directory, with the invocation trace. -/
def run_tool_on_dirs (fsx : Fs) (exec : Exec) (tool : BaseRustTool) :
    List Path → Bool × List Invocation
  | [] => (false, [])
  | d :: ds =>
    let r := BaseRustTool.run fsx exec tool d
    let rest := run_tool_on_dirs fsx exec tool ds
    ((!r.1.success) || rest.1, r.2 ++ rest.2)

/-- `RustToolRunner.run_on_dirs`: run every tool on every directory and
collect the names of the tools that failed somewhere (each name appended
once, after that tool's directory loop), with the invocation trace. -/
def run_on_dirs (fsx : Fs) (exec : Exec) :
    List BaseRustTool → List Path → List String × List Invocation
  | [], _ => ([], [])
  | t :: ts, dirs =>
    let this := run_tool_on_dirs fsx exec t dirs
    let rest := run_on_dirs fsx exec ts dirs
    ((if this.1 then [t.name] else []) ++ rest.1, this.2 ++ rest.2)

/-- The mode-resolution `if/elif/else` chain at the top of
`RustToolRunner.run`: formatting first, then fixing (with the allow-dirty
sub-variant), then linting as the default. -/
def tools_for_mode (selected_tools : Option (List String))
    (is_formatting is_fixing is_allow_dirty_fixing : Bool) :
    List BaseRustTool :=
  if is_formatting then get_tools_to_run formatters selected_tools
  else if is_fixing then
    (if is_allow_dirty_fixing then
        get_tools_to_run allow_dirty_fixers selected_tools
      else get_tools_to_run fixers selected_tools)
  else get_tools_to_run linters selected_tools

/-- The `action` string used in the final success banner of
`RustToolRunner.run`. -/
def action_for_mode (is_formatting is_fixing : Bool) : String :=
  if is_formatting then "formatting"
  else if is_fixing then "fixes"
  else "linting checks"

/-- `paths = target_dirs if target_dirs else [DEFAULT_CARGO_DIR]`:
Python truthiness sends both `None` and the empty list to the default. -/
def effective_paths (target_dirs : Option (List Path)) : List Path :=
  match target_dirs with
  | some ds => if ds.isEmpty then [default_cargo_dir] else ds
  | none => [default_cargo_dir]

/-- The observable outcome of `RustToolRunner.run`: the exit code passed
to `sys.exit`, the collected failed-tool names, the final console message
(failure summary or success banner) and the external invocations made. -/
structure RunOutput where
  exit_code : Nat
  failures : List String
  final_message : String
  invocations : List Invocation
deriving DecidableEq

/-- `RustToolRunner.run`: resolve the mode, expand the target paths, run
the tools, and exit 1 with a failure summary when any tool failed,
else exit 0 with the success banner. -/
def RustToolRunner.run (fsx : Fs) (exec : Exec)
    (target_dirs : Option (List Path)) (selected_tools : Option (List String))
    (is_formatting is_fixing is_allow_dirty_fixing : Bool) : RunOutput :=
  let tools_to_run :=
    tools_for_mode selected_tools is_formatting is_fixing is_allow_dirty_fixing
  let paths := effective_paths target_dirs
  let r := run_on_dirs fsx exec tools_to_run paths
  if r.1.isEmpty then
    { exit_code := 0, failures := r.1,
      final_message :=
        "All " ++ action_for_mode is_formatting is_fixing ++
          " completed successfully!",
      invocations := r.2 }
  else
    { exit_code := 1, failures := r.1,
      final_message :=
        "The following tools failed: " ++ String.intercalate ", " r.1,
      invocations := r.2 }

/-- The `while True` walk of `find_cargo_manifest_dir`, on the current
directory: return it if it holds `Cargo.toml`; stop with `none` at the
root (whose parent is itself, `[].dropLast = []`); else move to the
parent. -/
def findManifestLoop (fsx : Fs) (d : Path) : Option Path :=
  if fsx (d ++ ["Cargo.toml"]) then some d
  else if h : d = [] then none
  else findManifestLoop fsx d.dropLast
termination_by d.length
decreasing_by
  have h1 : 0 < d.length := List.length_pos.mpr h
  simp only [List.length_dropLast]
  omega

/-- `find_cargo_manifest_dir(path)`: start at the absolute directory
containing `path` (`os.path.dirname`, i.e. `dropLast`) and walk upward. -/
def find_cargo_manifest_dir (fsx : Fs) (path : Path) : Option Path :=
  findManifestLoop fsx path.dropLast

/-- The chain of ancestor directories of `d` visited by the walk, nearest
first: `d`, its parent, ..., down to the root `[]`. -/
def ancestors (d : Path) : List Path :=
  if h : d = [] then [[]]
  else d :: ancestors d.dropLast
termination_by d.length
decreasing_by
  have h1 : 0 < d.length := List.length_pos.mpr h
  simp only [List.length_dropLast]
  omega

/-- How a piece of the script terminates: it either called
`sys.exit code` after printing `message`, or let an exception (a
`CalledProcessError` from a `check=True` subprocess call) propagate, or
produced a value and continued. -/
inductive Outcome (α : Type) where
  | exited (code : Nat) (message : String)
  | raised (error : String)
  | ok (a : α)
deriving DecidableEq

/-- The observed result of one fixed `git diff` query: its return code
and its stdout already split into lines, one file path per line. -/
structure GitQuery where
  returncode : Int
  lines : List Path
deriving DecidableEq

/-- The version-control oracle: the results of the two queries issued by
`get_modified_files` (`git diff --cached --name-only` and
`git diff --name-only`). -/
structure GitEnv where
  diff_cached : GitQuery
  diff : GitQuery
deriving DecidableEq

/-- Order-preserving deduplication with a seed accumulator: the
`list(dict.fromkeys(...))` idiom (keep the first occurrence of each
element, in encounter order). -/
def dedupInto (acc : List Path) : List Path → List Path
  | [] => acc
  | x :: xs => dedupInto (if acc.contains x then acc else acc ++ [x]) xs

/-- `list(dict.fromkeys(xs))`: deduplicate preserving first-seen order. -/
def dedupFirst (xs : List Path) : List Path := dedupInto [] xs

/-- `get_modified_files()`: the staged query runs with `check=True` (a
non-zero exit raises), the unstaged one with `check=False` (its output is
used as captured); concatenate staged then unstaged, deduplicate keeping
first-seen order, keep only paths existing on disk, and `sys.exit(0)`
with an informational message when nothing remains. -/
def get_modified_files (git : GitEnv) (fsx : Fs) : Outcome (List Path) :=
  if git.diff_cached.returncode = 0 then
    let staged := git.diff_cached.lines
    let unstaged := git.diff.lines
    let modified := (dedupFirst (staged ++ unstaged)).filter fsx
    if modified.isEmpty then Outcome.exited 0 "No modified files found."
    else Outcome.ok modified
  else Outcome.raised "CalledProcessError: git diff --cached --name-only"

/-- The `for file in modified_files` loop of `get_modified_dirs`: map each
file to its owning manifest directory, skip files with none, and append a
directory only when not already collected. -/
def dirsLoop (fsx : Fs) : List Path → List Path → List Path
  | [], dirs => dirs
  | file :: rest, dirs =>
    match find_cargo_manifest_dir fsx file with
    | some manifest_dir =>
        dirsLoop fsx rest
          (if dirs.contains manifest_dir then dirs else dirs ++ [manifest_dir])
    | none => dirsLoop fsx rest dirs

/-- `get_modified_dirs()`: resolve the changed files to their owning
cargo project directories, `sys.exit(0)` with a message when none. -/
def get_modified_dirs (git : GitEnv) (fsx : Fs) : Outcome (List Path) :=
  match get_modified_files git fsx with
  | Outcome.ok modified_files =>
      let dirs := dirsLoop fsx modified_files []
      if dirs.isEmpty then
        Outcome.exited 0 "No modified cargo projects found."
      else Outcome.ok dirs
  | Outcome.exited c m => Outcome.exited c m
  | Outcome.raised e => Outcome.raised e

/-- The parsed command-line arguments of `main()` (`allow_dirty_fixes`
models the `--unsafe-fixes` flag). -/
structure Args where
  paths : List Path
  linters_arg : Option (List String)
  format : Bool
  formatters_arg : Option (List String)
  fix : Bool
  allow_dirty_fixes : Bool
  git_modified : Bool

/-- `main()`: pick the target paths (git-modified mode, explicit paths,
or the default directory), pick the tool-name filter
(`args.formatters if args.format else args.linters`), and hand over to
`RustToolRunner.run`. -/
def lint_main (fsx : Fs) (exec : Exec) (git : GitEnv) (args : Args) :
    Outcome RunOutput :=
  match (if args.git_modified then get_modified_dirs git fsx
         else if !args.paths.isEmpty then Outcome.ok args.paths
         else Outcome.ok [default_cargo_dir]) with
  | Outcome.ok target_paths =>
      let selected_tools :=
        if args.format then args.formatters_arg else args.linters_arg
      Outcome.ok (RustToolRunner.run fsx exec (some target_paths)
        selected_tools args.format args.fix args.allow_dirty_fixes)
  | Outcome.exited c m => Outcome.exited c m
  | Outcome.raised e => Outcome.raised e

/-! ## Concrete fixtures used in example conjuncts and witnesses -/

/-- Fixture filesystem: three sibling cargo projects D1, D2, D3, each
holding its manifest and one source file. -/
def exampleFs : Fs := fun p =>
  decide (p = ["D1", "Cargo.toml"]) || decide (p = ["D2", "Cargo.toml"]) ||
  decide (p = ["D3", "Cargo.toml"]) || decide (p = ["D1", "a.rs"]) ||
  decide (p = ["D2", "b.rs"]) || decide (p = ["D3", "c.rs"])

/-- Fixture git environment: staged files [a, b] and unstaged files
[a, c], both queries succeeding, so the combined change set is the list
[a, b, a, c]. -/
def exampleGit : GitEnv :=
  { diff_cached := { returncode := 0, lines := [["D1", "a.rs"], ["D2", "b.rs"]] },
    diff := { returncode := 0, lines := [["D1", "a.rs"], ["D3", "c.rs"]] } }

/-- Fixture filesystem where every path exists. -/
def fsAll : Fs := fun _ => true

/-- Fixture filesystem where no path exists. -/
def fsNone : Fs := fun _ => false

/-- Fixture process oracle: every command exits 0 with empty output. -/
def execZero : Exec := fun _ _ => ⟨0, "", ""⟩

/-- Fixture process oracle: every command exits 1 with some output. -/
def execFail : Exec := fun _ _ => ⟨1, "boom", "error: foo"⟩

/-- Fixture registry with three tools named a, b and c. -/
def toolsABC : List BaseRustTool :=
  [⟨"a", fun _ => []⟩, ⟨"b", fun _ => []⟩, ⟨"c", fun _ => []⟩]

/-- Fixture: a git environment with no staged and no unstaged changes. -/
def gitQuiet : GitEnv := ⟨⟨0, []⟩, ⟨0, []⟩⟩

/-- Fixture: git-modified-mode arguments with every other flag unset. -/
def argsGitW : Args :=
  { paths := [], linters_arg := none, format := false, formatters_arg := none,
    fix := false, allow_dirty_fixes := false, git_modified := true }

/-- Fixture: staged query succeeded, unstaged query failed with exit 7. -/
def gitW1 : GitEnv := ⟨⟨0, [["D1", "a.rs"]]⟩, ⟨7, [["D3", "c.rs"]]⟩⟩

end RustLint

/-! ## Proofs -/

namespace RustLint

theorem run_tool_on_dirs_fst (fsx : Fs) (exec : Exec) (tool : BaseRustTool) :
    ∀ dirs : List Path,
      (run_tool_on_dirs fsx exec tool dirs).1 =
        dirs.any (fun d => !(BaseRustTool.run fsx exec tool d).1.success) := by
  intro dirs
  induction dirs with
  | nil => rfl
  | cons d ds ih => simp [run_tool_on_dirs, ih, List.any_cons]

theorem run_on_dirs_fst (fsx : Fs) (exec : Exec) :
    ∀ (tools : List BaseRustTool) (dirs : List Path),
      (run_on_dirs fsx exec tools dirs).1 =
        (tools.filter (fun t =>
          dirs.any (fun d => !(BaseRustTool.run fsx exec t d).1.success))).map
          (fun t => t.name) := by
  intro tools dirs
  induction tools with
  | nil => rfl
  | cons t ts ih =>
    simp only [run_on_dirs, run_tool_on_dirs_fst, List.filter_cons]
    by_cases h : dirs.any (fun d => !(BaseRustTool.run fsx exec t d).1.success)
    · simp [h, ih]
    · simp [h, ih]

theorem run_on_dirs_fst_eq_nil_iff (fsx : Fs) (exec : Exec)
    (tools : List BaseRustTool) (dirs : List Path) :
    (run_on_dirs fsx exec tools dirs).1 = [] ↔
      ∀ t ∈ tools, ∀ d ∈ dirs,
        (BaseRustTool.run fsx exec t d).1.success = true := by
  rw [run_on_dirs_fst]
  simp [List.map_eq_nil_iff, List.filter_eq_nil_iff, List.any_eq_true]

lemma run_on_dirs_fst_ne_nil_iff (fsx : Fs) (exec : Exec)
    (tools : List BaseRustTool) (dirs : List Path) :
    (run_on_dirs fsx exec tools dirs).1 ≠ [] ↔
      ∃ t ∈ tools, ∃ d ∈ dirs,
        (BaseRustTool.run fsx exec t d).1.success = false := by
  rw [Ne, run_on_dirs_fst_eq_nil_iff]
  push_neg
  simp [Bool.not_eq_true]

theorem findManifestLoop_eq_find (fsx : Fs) :
    ∀ (n : Nat) (d : Path), d.length ≤ n →
      findManifestLoop fsx d =
        (ancestors d).find? (fun a => fsx (a ++ ["Cargo.toml"])) := by
  intro n
  induction n with
  | zero =>
    intro d hd
    have hdnil : d = [] := List.eq_nil_of_length_eq_zero (Nat.le_zero.mp hd)
    subst hdnil
    rw [findManifestLoop, ancestors]
    by_cases hm : fsx ["Cargo.toml"] <;> simp [hm, List.find?]
  | succ n ih =>
    intro d hd
    rw [findManifestLoop, ancestors]
    by_cases hnil : d = []
    · subst hnil
      by_cases hm : fsx ["Cargo.toml"] <;> simp [hm, List.find?]
    · by_cases hm : fsx (d ++ ["Cargo.toml"])
      · simp [hnil, hm, List.find?_cons]
      · have hlen : d.dropLast.length ≤ n := by
          have h1 : 0 < d.length := List.length_pos.mpr hnil
          simp only [List.length_dropLast]
          omega
        simp [hnil, hm, List.find?_cons, ih d.dropLast hlen]

theorem mem_ancestors : ∀ (n : Nat) (d : Path), d.length ≤ n →
    ∀ a : Path, a ∈ ancestors d ↔ ∃ t, a ++ t = d := by
  intro n
  induction n with
  | zero =>
    intro d hd a
    have hdnil : d = [] := List.eq_nil_of_length_eq_zero (Nat.le_zero.mp hd)
    subst hdnil
    rw [ancestors]
    simp [List.append_eq_nil]
  | succ n ih =>
    intro d hd a
    by_cases hnil : d = []
    · subst hnil
      rw [ancestors]
      simp [List.append_eq_nil]
    · have hlen : d.dropLast.length ≤ n := by
        have h1 : 0 < d.length := List.length_pos.mpr hnil
        simp only [List.length_dropLast]
        omega
      rw [ancestors]
      simp only [hnil, dite_false, List.mem_cons, ih d.dropLast hlen a]
      constructor
      · rintro (rfl | ⟨t, ht⟩)
        · exact ⟨[], List.append_nil a⟩
        · refine ⟨t ++ [d.getLast hnil], ?_⟩
          rw [← List.append_assoc, ht, List.dropLast_append_getLast hnil]
      · rintro ⟨t, ht⟩
        rcases List.eq_nil_or_concat t with rfl | ⟨t1, b, rfl⟩
        · left
          simpa using ht
        · right
          refine ⟨t1, ?_⟩
          rw [← ht, List.concat_eq_append, ← List.append_assoc]
          exact List.dropLast_concat.symm

theorem dirsLoop_eq (fsx : Fs) :
    ∀ (files acc : List Path),
      dirsLoop fsx files acc =
        dedupInto acc (files.filterMap (find_cargo_manifest_dir fsx)) := by
  intro files
  induction files with
  | nil => intro acc; rfl
  | cons f rest ih =>
    intro acc
    simp only [dirsLoop, List.filterMap_cons]
    cases h : find_cargo_manifest_dir fsx f with
    | none => simp [ih]
    | some manifest_dir => simp [ih, dedupInto]

lemma run_failures_eq (fsx : Fs) (exec : Exec)
    (target_dirs : Option (List Path)) (sel : Option (List String))
    (fmt fix adf : Bool) :
    (RustToolRunner.run fsx exec target_dirs sel fmt fix adf).failures =
      (run_on_dirs fsx exec (tools_for_mode sel fmt fix adf)
        (effective_paths target_dirs)).1 := by
  simp only [RustToolRunner.run]
  by_cases hF : (run_on_dirs fsx exec (tools_for_mode sel fmt fix adf)
      (effective_paths target_dirs)).1.isEmpty <;> simp [hF]

lemma run_exit_zero_iff (fsx : Fs) (exec : Exec)
    (target_dirs : Option (List Path)) (sel : Option (List String))
    (fmt fix adf : Bool) :
    (RustToolRunner.run fsx exec target_dirs sel fmt fix adf).exit_code = 0 ↔
      (run_on_dirs fsx exec (tools_for_mode sel fmt fix adf)
        (effective_paths target_dirs)).1 = [] := by
  simp only [RustToolRunner.run]
  by_cases hF : (run_on_dirs fsx exec (tools_for_mode sel fmt fix adf)
      (effective_paths target_dirs)).1 = []
  · simp [hF]
  · simp [hF, List.isEmpty_iff]

lemma run_exit_one_iff (fsx : Fs) (exec : Exec)
    (target_dirs : Option (List Path)) (sel : Option (List String))
    (fmt fix adf : Bool) :
    (RustToolRunner.run fsx exec target_dirs sel fmt fix adf).exit_code = 1 ↔
      (run_on_dirs fsx exec (tools_for_mode sel fmt fix adf)
        (effective_paths target_dirs)).1 ≠ [] := by
  simp only [RustToolRunner.run]
  by_cases hF : (run_on_dirs fsx exec (tools_for_mode sel fmt fix adf)
      (effective_paths target_dirs)).1 = []
  · simp [hF]
  · simp [hF, List.isEmpty_iff]

lemma run_message_success (fsx : Fs) (exec : Exec)
    (target_dirs : Option (List Path)) (sel : Option (List String))
    (fmt fix adf : Bool)
    (h : (run_on_dirs fsx exec (tools_for_mode sel fmt fix adf)
        (effective_paths target_dirs)).1 = []) :
    (RustToolRunner.run fsx exec target_dirs sel fmt fix adf).final_message =
      "All " ++ action_for_mode fmt fix ++ " completed successfully!" := by
  simp [RustToolRunner.run, h]

lemma run_message_failure (fsx : Fs) (exec : Exec)
    (target_dirs : Option (List Path)) (sel : Option (List String))
    (fmt fix adf : Bool)
    (h : (run_on_dirs fsx exec (tools_for_mode sel fmt fix adf)
        (effective_paths target_dirs)).1 ≠ []) :
    (RustToolRunner.run fsx exec target_dirs sel fmt fix adf).final_message =
      "The following tools failed: " ++ String.intercalate ", "
        (run_on_dirs fsx exec (tools_for_mode sel fmt fix adf)
          (effective_paths target_dirs)).1 := by
  simp [RustToolRunner.run, h, List.isEmpty_iff]

/-- Helper: a run whose resolved tool mapping is empty performs no
invocation and exits 0 with the success banner. -/
lemma runner_run_no_tools (fsx : Fs) (exec : Exec)
    (target_dirs : Option (List Path)) (sel : Option (List String))
    (fmt fix adf : Bool)
    (h : tools_for_mode sel fmt fix adf = []) :
    RustToolRunner.run fsx exec target_dirs sel fmt fix adf =
      { exit_code := 0, failures := [],
        final_message :=
          "All " ++ action_for_mode fmt fix ++ " completed successfully!",
        invocations := [] } := by
  simp [RustToolRunner.run, h, run_on_dirs]

/-- Claim C1: the orchestrator's `run` exits 1 exactly when at least one
selected tool failed in at least one effective target directory; its
failure summary lists each failed tool's name once (one entry per failed
tool, however many directories it failed in); when no tool failed it
prints the success banner naming the action and exits 0. -/
theorem c1_orchestrator_termination (fsx : Fs) (exec : Exec)
    (target_dirs : Option (List Path)) (sel : Option (List String))
    (fmt fix adf : Bool) :
    ((RustToolRunner.run fsx exec target_dirs sel fmt fix adf).exit_code = 1 ↔
      ∃ t ∈ tools_for_mode sel fmt fix adf,
        ∃ d ∈ effective_paths target_dirs,
          (BaseRustTool.run fsx exec t d).1.success = false) ∧
    ((RustToolRunner.run fsx exec target_dirs sel fmt fix adf).exit_code = 0 ↔
      ∀ t ∈ tools_for_mode sel fmt fix adf,
        ∀ d ∈ effective_paths target_dirs,
          (BaseRustTool.run fsx exec t d).1.success = true) ∧
    (RustToolRunner.run fsx exec target_dirs sel fmt fix adf).failures =
      ((tools_for_mode sel fmt fix adf).filter (fun t =>
        (effective_paths target_dirs).any (fun d =>
          !(BaseRustTool.run fsx exec t d).1.success))).map (fun t => t.name) ∧
    ((RustToolRunner.run fsx exec target_dirs sel fmt fix adf).failures = [] →
      (RustToolRunner.run fsx exec target_dirs sel fmt fix adf).final_message =
        "All " ++ action_for_mode fmt fix ++ " completed successfully!") ∧
    ((RustToolRunner.run fsx exec target_dirs sel fmt fix adf).failures ≠ [] →
      (RustToolRunner.run fsx exec target_dirs sel fmt fix adf).final_message =
        "The following tools failed: " ++ String.intercalate ", "
          (RustToolRunner.run fsx exec target_dirs sel fmt fix adf).failures) := by
  refine ⟨?_, ?_, ?_, ?_, ?_⟩
  · rw [run_exit_one_iff, run_on_dirs_fst_ne_nil_iff]
  · rw [run_exit_zero_iff, run_on_dirs_fst_eq_nil_iff]
  · rw [run_failures_eq, run_on_dirs_fst]
  · intro h
    rw [run_failures_eq] at h
    exact run_message_success fsx exec target_dirs sel fmt fix adf h
  · intro h
    rw [run_failures_eq] at h
    rw [run_failures_eq, run_message_failure fsx exec target_dirs sel fmt fix adf h]

/-- Witness for C1 at a concrete environment: a failing linter run in one
directory with a manifest. -/
theorem c1_orchestrator_termination_witness :
    (RustToolRunner.run fsAll execFail (some [["proj"]]) none
        false false false).failures =
      ((tools_for_mode none false false false).filter (fun t =>
        (effective_paths (some [["proj"]])).any (fun d =>
          !(BaseRustTool.run fsAll execFail t d).1.success))).map
        (fun t => t.name) :=
  (c1_orchestrator_termination fsAll execFail (some [["proj"]]) none
    false false false).2.2.1

/-- Claim C2: `find_cargo_manifest_dir` starts at the directory containing
the given path (its `dropLast`, i.e. `os.path.dirname`) and walks upward
one parent at a time: it returns the first — hence nearest — visited
ancestor directory containing `Cargo.toml`, returns `none` exactly when no
visited ancestor contains it (the walk having reached the filesystem
root), and the visited candidates are precisely the ancestor prefixes of
the starting directory, nearest first. -/
theorem c2_manifest_locator (fsx : Fs) (path : Path) :
    find_cargo_manifest_dir fsx path =
        (ancestors path.dropLast).find? (fun a => fsx (a ++ ["Cargo.toml"])) ∧
    (find_cargo_manifest_dir fsx path = none ↔
        ∀ a ∈ ancestors path.dropLast, fsx (a ++ ["Cargo.toml"]) = false) ∧
    (∀ a : Path, a ∈ ancestors path.dropLast ↔ ∃ t, a ++ t = path.dropLast) := by
  have h1 : find_cargo_manifest_dir fsx path =
      (ancestors path.dropLast).find? (fun a => fsx (a ++ ["Cargo.toml"])) :=
    findManifestLoop_eq_find fsx path.dropLast.length path.dropLast le_rfl
  refine ⟨h1, ?_, mem_ancestors path.dropLast.length path.dropLast le_rfl⟩
  rw [h1, List.find?_eq_none]
  constructor
  · intro h a ha
    simpa using h a ha
  · intro h a ha
    simp [h a ha]

/-- Witness for C2: the locator agrees with the nearest-first search over
the ancestors of the file's directory in a concrete filesystem. -/
theorem c2_manifest_locator_witness :
    find_cargo_manifest_dir exampleFs ["D1", "sub", "a.rs"] =
      (ancestors (["D1", "sub", "a.rs"] : Path).dropLast).find?
        (fun a => exampleFs (a ++ ["Cargo.toml"])) :=
  (c2_manifest_locator exampleFs ["D1", "sub", "a.rs"]).1

/-- Claim C3: the change-set resolver concatenates the staged then the
unstaged file lists, deduplicates preserving first-seen order, filters to
paths existing on disk, maps each remaining file to its owning project
directory (skipping files with none) and deduplicates the directories
preserving discovery order; in particular changed files [a, b, a, c]
owned by [D1, D2, D1, D3] yield exactly [D1, D2, D3] in that order. -/
theorem c3_changeset_resolver (git : GitEnv) (fsx : Fs) :
    (∀ ds, get_modified_dirs git fsx = Outcome.ok ds →
      ds = dedupFirst
        (((dedupFirst (git.diff_cached.lines ++ git.diff.lines)).filter
            fsx).filterMap (find_cargo_manifest_dir fsx))) ∧
    get_modified_dirs exampleGit exampleFs =
      Outcome.ok [["D1"], ["D2"], ["D3"]] := by
  constructor
  · intro ds h
    by_cases h0 : git.diff_cached.returncode = 0
    · simp only [get_modified_dirs, get_modified_files, h0, if_true] at h
      by_cases hemp : ((dedupFirst (git.diff_cached.lines ++
          git.diff.lines)).filter fsx).isEmpty
      · simp [hemp] at h
      · simp only [hemp, Bool.false_eq_true, if_false] at h
        rw [dirsLoop_eq] at h
        by_cases hd : (dedupInto []
            (((dedupFirst (git.diff_cached.lines ++ git.diff.lines)).filter
              fsx).filterMap (find_cargo_manifest_dir fsx))).isEmpty
        · simp [hd] at h
        · simp only [hd, Bool.false_eq_true, if_false, Outcome.ok.injEq] at h
          rw [← h]
          rfl
    · simp [get_modified_dirs, get_modified_files, h0] at h
  · simp [get_modified_dirs, get_modified_files, exampleGit, exampleFs,
      dedupFirst, dedupInto, dirsLoop, find_cargo_manifest_dir,
      findManifestLoop]

/-- Witness for C3: the deduplicated directory pipeline evaluated on the
concrete [a, b, a, c] change set. -/
theorem c3_changeset_resolver_witness :
    ([["D1"], ["D2"], ["D3"]] : List Path) = dedupFirst
      (((dedupFirst (exampleGit.diff_cached.lines ++
          exampleGit.diff.lines)).filter exampleFs).filterMap
        (find_cargo_manifest_dir exampleFs)) :=
  (c3_changeset_resolver exampleGit exampleFs).1 [["D1"], ["D2"], ["D3"]]
    (c3_changeset_resolver exampleGit exampleFs).2

/-- Claim C4: for every directory lacking the `Cargo.toml` marker,
`BaseRustTool.run` returns success with an informational "Skipped" stdout
payload and performs no external process invocation. -/
theorem c4_skip_without_manifest (fsx : Fs) (exec : Exec)
    (tool : BaseRustTool) (directory : Path)
    (h : fsx (directory ++ ["Cargo.toml"]) = false) :
    BaseRustTool.run fsx exec tool directory =
      (⟨tool.name, true, "Skipped " ++ pathStr directory, ""⟩, []) := by
  simp [BaseRustTool.run, h]

/-- Witness for C4: a markerless directory is skipped with success and no
invocation. -/
theorem c4_skip_without_manifest_witness :
    fsNone ((["proj"] : Path) ++ ["Cargo.toml"]) = false ∧
    BaseRustTool.run fsNone execZero
        ⟨"clippy", fun _ => ["cargo", "clippy"]⟩ ["proj"] =
      (⟨"clippy", true, "Skipped " ++ pathStr ["proj"], ""⟩, []) :=
  ⟨rfl, c4_skip_without_manifest fsNone execZero
    ⟨"clippy", fun _ => ["cargo", "clippy"]⟩ ["proj"] rfl⟩

/-- Claim C5: for every directory containing the marker,
`BaseRustTool.run` performs exactly one external invocation — the command
built by the tool's command factory, with working directory set to the
target directory — and returns a `ToolResult` whose success flag equals
(exit code == 0) with the captured output streams; consequently a
successful `ToolResult` arises only from a zero exit or from a skip. -/
theorem c5_run_with_manifest (fsx : Fs) (exec : Exec)
    (tool : BaseRustTool) (directory : Path)
    (h : fsx (directory ++ ["Cargo.toml"]) = true) :
    BaseRustTool.run fsx exec tool directory =
      (⟨tool.name,
        (exec (tool.command_factory directory) directory).returncode == 0,
        (exec (tool.command_factory directory) directory).stdout,
        (exec (tool.command_factory directory) directory).stderr⟩,
       [⟨tool.command_factory directory, directory⟩]) ∧
    ∀ (fsx2 : Fs) (exec2 : Exec) (t2 : BaseRustTool) (d2 : Path),
      (BaseRustTool.run fsx2 exec2 t2 d2).1.success = true →
        fsx2 (d2 ++ ["Cargo.toml"]) = false ∨
          (exec2 (t2.command_factory d2) d2).returncode = 0 := by
  constructor
  · simp [BaseRustTool.run, h]
  · intro fsx2 exec2 t2 d2 hs
    by_cases h2 : fsx2 (d2 ++ ["Cargo.toml"])
    · right
      simp [BaseRustTool.run, h2] at hs
      exact hs
    · left
      simpa using h2

/-- Witness for C5: a directory with a manifest runs exactly one command
and succeeds exactly when it exits 0. -/
theorem c5_run_with_manifest_witness :
    fsAll ((["proj"] : Path) ++ ["Cargo.toml"]) = true ∧
    BaseRustTool.run fsAll execZero
        ⟨"clippy", fun _ => ["cargo", "clippy"]⟩ ["proj"] =
      (⟨"clippy",
        (execZero ["cargo", "clippy"] ["proj"]).returncode == 0,
        (execZero ["cargo", "clippy"] ["proj"]).stdout,
        (execZero ["cargo", "clippy"] ["proj"]).stderr⟩,
       [⟨["cargo", "clippy"], ["proj"]⟩]) :=
  ⟨rfl, (c5_run_with_manifest fsAll execZero
    ⟨"clippy", fun _ => ["cargo", "clippy"]⟩ ["proj"] rfl).1⟩

/-- Claim C6: in git-modified mode, when the deduplicated existing
changed-file list is empty the process exits 0 with the informational
message "No modified files found.", and when it is non-empty but no file
has an owning project directory the process exits 0 with "No modified
cargo projects found."; both exits happen inside change-set resolution,
before the tool runner (and hence any tool) is ever reached. -/
theorem c6_git_mode_early_exit (fsx : Fs) (exec : Exec) (git : GitEnv)
    (args : Args) (hg : args.git_modified = true)
    (h0 : git.diff_cached.returncode = 0) :
    (((dedupFirst (git.diff_cached.lines ++ git.diff.lines)).filter fsx) =
        [] →
      lint_main fsx exec git args =
        Outcome.exited 0 "No modified files found.") ∧
    (((dedupFirst (git.diff_cached.lines ++ git.diff.lines)).filter fsx) ≠
        [] →
      ((dedupFirst (git.diff_cached.lines ++ git.diff.lines)).filter
          fsx).filterMap (find_cargo_manifest_dir fsx) = [] →
      lint_main fsx exec git args =
        Outcome.exited 0 "No modified cargo projects found.") := by
  constructor
  · intro hfiles
    simp [lint_main, hg, get_modified_dirs, get_modified_files, h0, hfiles]
  · intro hfiles hdirs
    have hloop : dirsLoop fsx
        ((dedupFirst (git.diff_cached.lines ++ git.diff.lines)).filter fsx)
        [] = [] := by
      rw [dirsLoop_eq, hdirs]
      rfl
    simp [lint_main, hg, get_modified_dirs, get_modified_files, h0, hfiles,
      hloop]

/-- Witness for C6: a git-modified run with no changes at all exits 0
before any tool is reached. -/
theorem c6_git_mode_early_exit_witness :
    argsGitW.git_modified = true ∧ gitQuiet.diff_cached.returncode = 0 ∧
    lint_main exampleFs execZero gitQuiet argsGitW =
      Outcome.exited 0 "No modified files found." :=
  ⟨rfl, rfl,
    (c6_git_mode_early_exit exampleFs execZero gitQuiet argsGitW rfl rfl).1
      rfl⟩

/-- Claim C7: tool selection with a non-empty name filter keeps exactly
the registry entries whose names are in the filter, silently ignoring
filter names absent from the registry; with no filter, or an empty one,
it returns the full registry; in particular the registry with tools
a, b, c filtered by [b, x] yields exactly the tool b. -/
theorem c7_tool_selection (tools : List BaseRustTool) (sel : List String)
    (h : sel ≠ []) :
    get_tools_to_run tools (some sel) =
        tools.filter (fun t => sel.contains t.name) ∧
    get_tools_to_run tools none = tools ∧
    get_tools_to_run tools (some []) = tools ∧
    get_tools_to_run toolsABC (some ["b", "x"]) = [⟨"b", fun _ => []⟩] := by
  refine ⟨?_, rfl, rfl, rfl⟩
  simp [get_tools_to_run, List.isEmpty_iff, h]

/-- Witness for C7: the non-empty filter [b, x] applied to the a, b, c
registry. -/
theorem c7_tool_selection_witness :
    (["b", "x"] : List String) ≠ [] ∧
    get_tools_to_run toolsABC (some ["b", "x"]) =
      toolsABC.filter (fun t => (["b", "x"] : List String).contains t.name) :=
  ⟨by simp, (c7_tool_selection toolsABC ["b", "x"] (by simp)).1⟩

theorem c8_mode_priority (sel : Option (List String)) (fix adf : Bool) :
    tools_for_mode sel true fix adf = get_tools_to_run formatters sel ∧
    tools_for_mode sel false true true =
      get_tools_to_run allow_dirty_fixers sel ∧
    tools_for_mode sel false true false = get_tools_to_run fixers sel ∧
    tools_for_mode sel false false adf = get_tools_to_run linters sel ∧
    action_for_mode true fix = "formatting" ∧
    action_for_mode false true = "fixes" ∧
    action_for_mode false false = "linting checks" ∧
    ∀ (fsx : Fs) (exec : Exec) (target_dirs : Option (List Path)),
      RustToolRunner.run fsx exec target_dirs sel true true adf =
        RustToolRunner.run fsx exec target_dirs sel true false false :=
  ⟨rfl, rfl, rfl, rfl, rfl, rfl, rfl, fun _ _ _ => rfl⟩

/-- Witness for C8: with both the formatting and the fixing flag set, the
formatter registry is the one consulted. -/
theorem c8_mode_priority_witness :
    tools_for_mode (some ["fmt"]) true true false =
      get_tools_to_run formatters (some ["fmt"]) :=
  (c8_mode_priority (some ["fmt"]) true false).1

/-- Claim C9: a non-zero exit of the unstaged (working-tree) diff query is
not propagated as an error: the resolver's outcome is unchanged if that
return code is replaced by 0, it never raises (given the staged query
succeeded), and it proceeds on exactly the captured staged-then-unstaged
output. -/
theorem c9_unstaged_failure_tolerated (git : GitEnv) (fsx : Fs)
    (h : git.diff_cached.returncode = 0) :
    (∀ c : Int,
      get_modified_files
          { git with diff := { returncode := c, lines := git.diff.lines } }
          fsx =
        get_modified_files git fsx) ∧
    (∀ e, get_modified_files git fsx ≠ Outcome.raised e) ∧
    get_modified_files git fsx =
      (if ((dedupFirst (git.diff_cached.lines ++ git.diff.lines)).filter
            fsx).isEmpty
       then Outcome.exited 0 "No modified files found."
       else Outcome.ok
         ((dedupFirst (git.diff_cached.lines ++ git.diff.lines)).filter
           fsx)) := by
  refine ⟨?_, ?_, ?_⟩
  · intro c
    simp [get_modified_files, h]
  · intro e
    by_cases hemp : ((dedupFirst (git.diff_cached.lines ++
        git.diff.lines)).filter fsx).isEmpty <;>
      simp [get_modified_files, h, hemp]
  · by_cases hemp : ((dedupFirst (git.diff_cached.lines ++
        git.diff.lines)).filter fsx).isEmpty <;>
      simp [get_modified_files, h, hemp]

/-- Witness for C9: with the unstaged query failing (exit 7), the outcome
equals the one with a zero exit code. -/
theorem c9_unstaged_failure_tolerated_witness :
    gitW1.diff_cached.returncode = 0 ∧
    get_modified_files
        { gitW1 with diff := { returncode := 0, lines := gitW1.diff.lines } }
        exampleFs =
      get_modified_files gitW1 exampleFs :=
  ⟨rfl, (c9_unstaged_failure_tolerated gitW1 exampleFs rfl).1 0⟩

/-- Claim C10: with the fix flag set and the format flag unset, the name
filter handed to selection is the `--linters` argument; so `--fix
--linters clippy` filters the fixer registry (whose only tool is named
"fix") down to an empty mapping, runs no external command, and exits 0
with the fixes success banner. -/
theorem c10_fix_with_linters_filter (fsx : Fs) (exec : Exec) (git : GitEnv)
    (paths : List Path) (adf : Bool) (fmtargs : Option (List String)) :
    tools_for_mode (some ["clippy"]) false true adf = [] ∧
    lint_main fsx exec git
      { paths := paths, linters_arg := some ["clippy"], format := false,
        formatters_arg := fmtargs, fix := true, allow_dirty_fixes := adf,
        git_modified := false } =
      Outcome.ok
        { exit_code := 0, failures := [],
          final_message := "All fixes completed successfully!",
          invocations := [] } := by
  have h1 : tools_for_mode (some ["clippy"]) false true adf = [] := by
    cases adf <;> rfl
  refine ⟨h1, ?_⟩
  by_cases hp : paths.isEmpty
  · have h2 := runner_run_no_tools fsx exec (some [default_cargo_dir])
      (some ["clippy"]) false true adf h1
    simp [lint_main, hp, h2]
    rfl
  · have h2 := runner_run_no_tools fsx exec (some paths)
      (some ["clippy"]) false true adf h1
    simp [lint_main, hp, h2]
    rfl

/-- Witness for C10 at a concrete environment. -/
theorem c10_fix_with_linters_filter_witness :
    tools_for_mode (some ["clippy"]) false true false = [] :=
  (c10_fix_with_linters_filter fsAll execZero
    ⟨⟨0, []⟩, ⟨0, []⟩⟩ [] false none).1

end RustLint
